import Mathlib

/-!
# Verification of the XRPL validator monitor polling core

Shallow embedding of the polling/state-tracking loop of
`xrpl-validator-monitor-dashboard` (files `src/collectors/fast_poller.py`,
`src/collectors/validation_tracker.py`, `src/alerts/alerter.py`,
`src/exporters/prometheus_exporter.py`, `src/storage/database.py`).

Python floats (timestamps, load factors, durations) are modelled as `ℚ`;
Python ints as `ℤ`; operational states as `String` (the source keeps them
as strings).  Optional attributes that start as `None` are `Option`s, and
Python truthiness of such attributes (`if self.last_state`, which is false
for `None`, `""` and `0`) is modelled explicitly at each use site.
-/

namespace XrplMonitor

/-- A row of the `state_transitions` table
(`Database.write_state_transition`). -/
structure StateTransitionRec where
  timestamp : ℚ
  old_state : String
  new_state : String
  duration : ℚ
  ledger_seq : ℤ
  peers : ℤ
  load_factor : ℚ
  deriving Repr, DecidableEq

/-- A row of the `ledger_validations` table
(`Database.write_ledger_validation`). -/
structure ValidationRec where
  timestamp : ℚ
  ledger_seq : ℤ
  server_state : String
  was_proposing : Bool
  should_validate : Bool
  did_validate : Bool
  agreed : Bool
  peers : ℤ
  load_factor : ℚ
  deriving Repr, DecidableEq

/-- An alert delivered through `Alerter.alert` (level, title). -/
structure AlertRec where
  level : String
  title : String
  deriving Repr, DecidableEq

/-- Severity chosen by `Alerter.state_change` from the new state only
(`alerter.py` lines 102-110). -/
def stateChangeLevel (new_state : String) : String :=
  if new_state = "disconnected" ∨ new_state = "syncing" then "CRITICAL"
  else if new_state = "tracking" then "WARNING"
  else if new_state = "proposing" then "INFO"
  else "WARNING"

/-- `Alerter.state_change`: builds the alert for a state transition. -/
def state_change (old_state new_state : String) (_duration : ℚ)
    (_ledger_seq : ℤ) : AlertRec :=
  { level := stateChangeLevel new_state
    title := "State Change: " ++ old_state ++ " → " ++ new_state }

/-- `ValidationTracker.check_ledger_validation`: derives the validation
record for one ledger sequence from the server state
(`validation_tracker.py` lines 61-104).  `was_proposing` is the state
comparison; `should_validate`, `did_validate` and `agreed` are all set to
`was_proposing`. -/
def check_ledger_validation (now : ℚ) (ledger_seq : ℤ) (server_state : String)
    (peers : ℤ) (load_factor : ℚ) : ValidationRec :=
  let was_proposing : Bool := server_state = "proposing"
  { timestamp := now
    ledger_seq := ledger_seq
    server_state := server_state
    was_proposing := was_proposing
    should_validate := was_proposing
    did_validate := was_proposing
    agreed := was_proposing
    peers := peers
    load_factor := load_factor }

/-- In-memory mutable state of `FastPoller` (the fields the core loop
reads and writes). -/
structure PollerState where
  last_state : Option String
  state_entered_at : Option ℚ
  last_ledger_seq : Option ℤ
  checked_ledgers : Finset ℤ
  consecutive_errors : ℕ
  poll_count : ℕ
  state_changes : ℕ
  alerts_sent : ℕ
  validations_checked : ℕ
  api_errors : ℕ
  deriving DecidableEq

/-- `FastPoller.__init__` field values. -/
def initialPoller : PollerState :=
  { last_state := none
    state_entered_at := none
    last_ledger_seq := none
    checked_ledgers := ∅
    consecutive_errors := 0
    poll_count := 0
    state_changes := 0
    alerts_sent := 0
    validations_checked := 0
    api_errors := 0 }

/-- `FastPoller.max_errors_before_alert`. -/
def max_errors_before_alert : ℕ := 2

/-- Python `range(a, b)` over integers: `[a, a+1, ..., b-1]`, empty when
`b ≤ a`. -/
def intRange (a b : ℤ) : List ℤ :=
  (List.range (b - a).toNat).map (fun (i : ℕ) => a + (i : ℤ))

/-- `fast_poller.py` lines 203-205: after marking a ledger seen, if the
seen-set holds more than 1000 members, remove the 500 numerically smallest
(`sorted(self.checked_ledgers)[:500]`). -/
def pruneSeen (s : Finset ℤ) : Finset ℤ :=
  if 1000 < s.card then s \ ((s.sort (· ≤ ·)).take 500).toFinset else s

/-- One iteration of the validation back-check loop
(`fast_poller.py` lines 188-205).  The accumulator carries the seen-set,
the validation records emitted so far, and the number of validations
checked. -/
def gapStep (now : ℚ) (sState : String) (peers : ℤ) (lf : ℚ)
    (acc : Finset ℤ × List ValidationRec × ℕ) (seq : ℤ) :
    Finset ℤ × List ValidationRec × ℕ :=
  if seq ∉ acc.1 ∧ 0 < seq then
    (pruneSeen (insert seq acc.1),
     acc.2.1 ++ [check_ledger_validation now seq sState peers lf],
     acc.2.2 + 1)
  else acc

/-- The validation back-check phase of `FastPoller.poll`
(`fast_poller.py` lines 186-205): guarded by the truthiness of
`self.last_ledger_seq` (false for `None` and `0`), it walks
`range(last_ledger_seq, current_seq)`. -/
def checkValidations (seen : Finset ℤ) (lastLedger : Option ℤ) (now : ℚ)
    (sState : String) (currentSeq peers : ℤ) (lf : ℚ) :
    Finset ℤ × List ValidationRec × ℕ :=
  match lastLedger with
  | none => (seen, [], 0)
  | some l =>
    if l = 0 then (seen, [], 0)
    else (intRange l currentSeq).foldl (gapStep now sState peers lf) (seen, [], 0)

/-- The inputs of one successful poll (the fields of the API reply that
the core loop uses). -/
structure PollInput where
  now : ℚ
  server_state : String
  seq : ℤ
  peers : ℤ
  load_factor : ℚ
  deriving Repr, DecidableEq

/-- Result of one call to `FastPoller.poll`: the new poller state and the
records/alerts/validations emitted during the call.  `errored` is set when
the poll body raised an unexpected exception that was caught by
`_handle_unexpected_error` (which only logs). -/
structure PollOutcome where
  st : PollerState
  transitions : List StateTransitionRec
  alerts : List AlertRec
  validations : List ValidationRec
  errored : Bool
  deriving DecidableEq

/-- The successful branch of `FastPoller.poll` (`fast_poller.py` lines
84-297).  Faithful points: `consecutive_errors` is reset and `poll_count`
incremented before the transition check; the transition fires when
`self.last_state` is truthy (non-`None`, non-empty) and differs from the
reported state; in that case `timestamp - self.state_entered_at` raises a
`TypeError` if `state_entered_at` is still `None` (caught by the generic
handler at line 301, aborting the rest of the poll body); the back-check
loop uses `self.last_state or current_state` (Python `or`: the old tracked
state when truthy, else the reported state); tracking fields are updated
last. -/
def pollSuccess (ps : PollerState) (inp : PollInput) : PollOutcome :=
  let ps0 : PollerState :=
    { ps with consecutive_errors := 0, poll_count := ps.poll_count + 1 }
  let phase : Option (PollerState × List StateTransitionRec × List AlertRec) :=
    match ps0.last_state, ps0.state_entered_at with
    | none, _ => some ({ ps0 with state_entered_at := some inp.now }, [], [])
    | some ls, ea =>
      if ls ≠ "" ∧ inp.server_state ≠ ls then
        match ea with
        | none => none
        | some e =>
          let d := inp.now - e
          some ({ ps0 with
                    state_changes := ps0.state_changes + 1
                    alerts_sent := ps0.alerts_sent + 1
                    state_entered_at := some inp.now },
                [{ timestamp := inp.now, old_state := ls,
                   new_state := inp.server_state, duration := d,
                   ledger_seq := inp.seq, peers := inp.peers,
                   load_factor := inp.load_factor }],
                [state_change ls inp.server_state d inp.seq])
      else some (ps0, [], [])
  match phase with
  | none =>
    { st := ps0, transitions := [], alerts := [], validations := [],
      errored := true }
  | some (ps1, trs, als) =>
    let sState : String :=
      match ps.last_state with
      | some ls => if ls = "" then inp.server_state else ls
      | none => inp.server_state
    let out := checkValidations ps1.checked_ledgers ps1.last_ledger_seq
      inp.now sState inp.seq inp.peers inp.load_factor
    { st := { ps1 with
                checked_ledgers := out.1
                validations_checked := ps1.validations_checked + out.2.2
                last_state := some inp.server_state
                last_ledger_seq := some inp.seq }
      transitions := trs
      alerts := als
      validations := out.2.1
      errored := false }

/-- `FastPoller._handle_api_error` (`fast_poller.py` lines 364-417):
increments the consecutive-failure count; for counts at most
`max_errors_before_alert` only logs; beyond the threshold, if the tracked
state is truthy and not already `unreachable`, emits one synthetic
transition record and one CRITICAL alert (duration from the existing
session, `0` when `state_entered_at` is falsy), then in every
over-threshold call sets the tracked state to `unreachable`. -/
def pollFailure (ps : PollerState) (now : ℚ) :
    PollerState × List StateTransitionRec × List AlertRec :=
  let n := ps.consecutive_errors + 1
  let ps0 : PollerState :=
    { ps with consecutive_errors := n, api_errors := ps.api_errors + 1 }
  if n ≤ max_errors_before_alert then (ps0, [], [])
  else
    let step : PollerState × List StateTransitionRec × List AlertRec :=
      match ps0.last_state with
      | some ls =>
        if ls ≠ "" ∧ ls ≠ "unreachable" then
          let d : ℚ :=
            match ps0.state_entered_at with
            | some e => if e = 0 then 0 else now - e
            | none => 0
          ({ ps0 with
               state_changes := ps0.state_changes + 1
               alerts_sent := ps0.alerts_sent + 1
               state_entered_at := some now },
           [{ timestamp := now, old_state := ls, new_state := "unreachable",
              duration := d, ledger_seq := ps0.last_ledger_seq.getD 0,
              peers := 0, load_factor := 0 }],
           [{ level := "CRITICAL", title := "Validator Unreachable" }])
        else (ps0, [], [])
      | none => (ps0, [], [])
    ({ step.1 with last_state := some "unreachable" }, step.2.1, step.2.2)

/-- `Database.write_ledger_validation` (`database.py` lines 237-264):
`INSERT OR REPLACE` into a table whose `ledger_seq` column is `UNIQUE`
(lines 109-122).  SQLite deletes any conflicting row and inserts the new
one; the table is modelled as the list of its rows. -/
def upsertValidation (db : List ValidationRec) (r : ValidationRec) :
    List ValidationRec :=
  (db.filter (fun x => x.ledger_seq ≠ r.ledger_seq)) ++ [r]

/-- Result shape of `Database.get_validation_stats_period`. -/
structure PeriodStats where
  total_checked : ℕ
  validated_count : ℕ
  missed_count : ℕ
  agreement_rate : ℚ
  hours : ℚ
  deriving Repr, DecidableEq

/-- `Database.get_validation_stats_period` (`database.py` lines 321-366):
counts rows with `timestamp >= now - hours*3600`; `validated_count` counts
rows with `did_validate = 1 AND agreed = 1`; `missed_count` counts rows
with `should_validate = 1 AND did_validate = 0`; the rate divides
`validated_count` by `total_checked` only when the total is positive. -/
def get_validation_stats_period (db : List ValidationRec) (now : ℚ)
    (hours : ℚ) : PeriodStats :=
  let cutoff := now - hours * 3600
  let w := db.filter (fun r => cutoff ≤ r.timestamp)
  let total := w.length
  let validated := (w.filter (fun r => r.did_validate && r.agreed)).length
  let missed := (w.filter (fun r => r.should_validate && !r.did_validate)).length
  if 0 < total then
    { total_checked := total, validated_count := validated,
      missed_count := missed,
      agreement_rate := (validated : ℚ) / (total : ℚ) * 100, hours := hours }
  else
    { total_checked := 0, validated_count := 0, missed_count := 0,
      agreement_rate := 0, hours := hours }

/-- Result shape of `Database.get_validation_stats`. -/
structure ValidationStats where
  total_ledgers : ℕ
  expected_validations : ℕ
  actual_validations : ℕ
  agreements : ℕ
  disagreements : ℕ
  missed : ℕ
  agreement_rate : ℚ
  validation_rate : ℚ
  deriving Repr, DecidableEq

/-- `Database.get_validation_stats` (`database.py` lines 266-317): over
rows with `timestamp >= now - hours*3600`, counts total rows, rows with
`should_validate`, rows with `did_validate` and rows with `agreed`;
`agreement_rate` divides agreements by actual validations (not by the
total), guarded by `validated > 0`. -/
def get_validation_stats (db : List ValidationRec) (now : ℚ) (hours : ℚ) :
    ValidationStats :=
  let cutoff := now - hours * 3600
  let w := db.filter (fun r => cutoff ≤ r.timestamp)
  let total := w.length
  let expected := (w.filter (fun r => r.should_validate)).length
  let validated := (w.filter (fun r => r.did_validate)).length
  let agreed := (w.filter (fun r => r.agreed)).length
  let missed := (w.filter (fun r => r.should_validate && !r.did_validate)).length
  let disagreed := (w.filter (fun r => r.did_validate && !r.agreed)).length
  { total_ledgers := total
    expected_validations := expected
    actual_validations := validated
    agreements := agreed
    disagreements := disagreed
    missed := missed
    agreement_rate := if 0 < validated then (agreed : ℚ) / (validated : ℚ) * 100 else 0
    validation_rate := if 0 < expected then (validated : ℚ) / (expected : ℚ) * 100 else 0 }

/-- `PrometheusExporter.update_jq_trans_overflow`
(`prometheus_exporter.py` lines 165-172): lazily initialised stored
previous value (`0` on first call), positive deltas only are applied to
the counter, the stored value is always overwritten with the new one.
Returns (new counter value, new stored previous value). -/
def update_jq_trans_overflow (last : Option ℤ) (ctr : ℤ) (count : ℤ) :
    ℤ × ℤ :=
  let l := last.getD 0
  let inc := count - l
  ((if 0 < inc then ctr + inc else ctr), count)

/-- `PrometheusExporter.update_peer_disconnects`
(`prometheus_exporter.py` lines 138-153): same reconciliation applied to
the two cumulative peer-disconnect counters.  Returns the two new counter
values followed by the two new stored previous values. -/
def update_peer_disconnects (lastTotal lastRes : Option ℤ)
    (ctrTotal ctrRes : ℤ) (total res : ℤ) : (ℤ × ℤ) × (ℤ × ℤ) :=
  let lt := lastTotal.getD 0
  let lr := lastRes.getD 0
  let total_inc := total - lt
  let resources_inc := res - lr
  (((if 0 < total_inc then ctrTotal + total_inc else ctrTotal),
    (if 0 < resources_inc then ctrRes + resources_inc else ctrRes)),
   (total, res))

/-- Driver folding a list of successful polls through `pollSuccess`,
collecting all transition records and alerts (the `while True` loop of
`FastPoller.run`, restricted to successful cycles). -/
def runPolls (ps : PollerState) (inps : List PollInput) :
    PollerState × List StateTransitionRec × List AlertRec :=
  inps.foldl
    (fun acc inp =>
      let out := pollSuccess acc.1 inp
      (out.st, acc.2.1 ++ out.transitions, acc.2.2 ++ out.alerts))
    (ps, [], [])

/-- Driver folding a list of failing polls through `pollFailure`,
collecting all transition records and alerts (the `while True` loop of
`FastPoller.run`, restricted to failing cycles). -/
def runFailures (ps : PollerState) (ts : List ℚ) :
    PollerState × List StateTransitionRec × List AlertRec :=
  ts.foldl
    (fun acc t =>
      let out := pollFailure acc.1 t
      (out.1, acc.2.1 ++ out.2.1, acc.2.2 ++ out.2.2))
    (ps, [], [])

/-- The poll sequence of spec testable property 4: reported states
`["syncing", "syncing", "full", "proposing"]`. -/
def demoInputs : List PollInput :=
  [⟨0, "syncing", 10, 5, 1⟩, ⟨3, "syncing", 11, 5, 1⟩,
   ⟨6, "full", 12, 5, 1⟩, ⟨9, "proposing", 13, 5, 1⟩]

/-- A poller state as it stands after a successful poll observed the
`full` state (used to instantiate the escalation theorems). -/
def fullStatePoller : PollerState :=
  { last_state := some "full"
    state_entered_at := some 5
    last_ledger_seq := some 100
    checked_ledgers := ∅
    consecutive_errors := 0
    poll_count := 1
    state_changes := 0
    alerts_sent := 0
    validations_checked := 0
    api_errors := 0 }

/-- A validation record as produced while the node was proposing. -/
def proposingRecord : ValidationRec :=
  check_ledger_validation 0 1 "proposing" 5 1

/-- The poller state after three consecutive API failures from process
start (no successful poll ever): `last_state` is `unreachable` but
`state_entered_at` is still `None`. -/
def threeFailuresFromStart : PollerState :=
  (pollFailure (pollFailure (pollFailure initialPoller 1).1 2).1 3).1

/-! ## Helper lemmas -/

/-- No eviction happens while the seen-set has at most 1000 members. -/
theorem pruneSeen_of_card_le (s : Finset ℤ) (h : s.card ≤ 1000) :
    pruneSeen s = s := by
  simp only [pruneSeen]
  rw [if_neg]
  omega

/-- Membership in the Python `range(a, b)`. -/
theorem mem_intRange {a b x : ℤ} : x ∈ intRange a b ↔ a ≤ x ∧ x < b := by
  constructor
  · intro hx
    obtain ⟨i, hi, hix⟩ := List.mem_map.mp hx
    have hi2 := List.mem_range.mp hi
    omega
  · intro hx
    exact List.mem_map.mpr ⟨(x - a).toNat, List.mem_range.mpr (by omega), by omega⟩

/-- `range(a, b)` has no duplicates. -/
theorem intRange_nodup (a b : ℤ) : (intRange a b).Nodup := by
  have hinj : Function.Injective (fun i : ℕ => a + (i : ℤ)) := by
    intro i j h
    simp only at h
    omega
  exact List.Nodup.map hinj (List.nodup_range _)

/-- Length of the Python `range(a, b)`. -/
theorem intRange_length (a b : ℤ) : (intRange a b).length = (b - a).toNat := by
  simp only [intRange, List.length_map, List.length_range]

/-- After any sequence of upserts starting from an empty table, the rows
with a given `ledger_seq` are exactly the last write with that sequence. -/
theorem upsert_filter_eq (ws : List ValidationRec) (q : ℤ) :
    (ws.foldl upsertValidation []).filter (fun r => r.ledger_seq = q) =
      ((ws.filter (fun r => r.ledger_seq = q)).getLast?).toList := by
  induction ws using List.reverseRecOn with
  | nil => simp
  | append_singleton l w ih =>
    rw [List.foldl_append]
    simp only [List.foldl_cons, List.foldl_nil, upsertValidation]
    rw [List.filter_append, List.filter_append, List.filter_filter]
    by_cases hq : w.ledger_seq = q
    · have h1 : (List.foldl upsertValidation [] l).filter
          (fun a => decide (a.ledger_seq = q) && decide (a.ledger_seq ≠ w.ledger_seq)) = [] := by
        apply List.filter_eq_nil_iff.mpr
        intro a _
        simp only [Bool.and_eq_true, decide_eq_true_eq, not_and]
        intro h2 h3
        exact h3 (h2.trans hq.symm)
      rw [h1]
      have h4 : [w].filter (fun r => r.ledger_seq = q) = [w] := by simp [hq]
      rw [h4, List.getLast?_concat]
      simp
    · have h2 : ([w].filter (fun r => r.ledger_seq = q)) = [] := by simp [hq]
      rw [h2, List.append_nil, List.append_nil]
      have h3 : (List.foldl upsertValidation [] l).filter
            (fun a => decide (a.ledger_seq = q) && decide (a.ledger_seq ≠ w.ledger_seq)) =
          (List.foldl upsertValidation [] l).filter (fun r => r.ledger_seq = q) := by
        apply List.filter_congr
        intro a _
        by_cases ha : a.ledger_seq = q
        · simp [ha, Ne.symm hq]
        · simp [ha]
      rw [h3, ih]

/-- When the seen-set holds exactly 1001 members, the eviction removes
exactly the 500 numerically smallest, leaving 501. -/
theorem evicted_spec (s : Finset ℤ) (h : s.card = 1001) :
    pruneSeen s ⊆ s ∧ (s \ pruneSeen s).card = 500 ∧ (pruneSeen s).card = 501 ∧
    ∀ x ∈ s \ pruneSeen s, ∀ y ∈ pruneSeen s, x < y := by
  have hprune : pruneSeen s = s \ ((s.sort (· ≤ ·)).take 500).toFinset := by
    simp only [pruneSeen]
    rw [if_pos (by omega)]
  have hlen : (s.sort (· ≤ ·)).length = 1001 := by
    rw [Finset.length_sort, h]
  have hnodup : (s.sort (· ≤ ·)).Nodup := s.sort_nodup (· ≤ ·)
  have htn : ((s.sort (· ≤ ·)).take 500).Nodup :=
    hnodup.sublist (List.take_sublist _ _)
  have hEcard : ((s.sort (· ≤ ·)).take 500).toFinset.card = 500 := by
    rw [List.toFinset_card_of_nodup htn, List.length_take, hlen]
    exact min_eq_left (by omega)
  have hEsub : ((s.sort (· ≤ ·)).take 500).toFinset ⊆ s := by
    intro x hx
    rw [List.mem_toFinset] at hx
    exact (Finset.mem_sort _).mp (List.mem_of_mem_take hx)
  have hdiff : s \ pruneSeen s = ((s.sort (· ≤ ·)).take 500).toFinset := by
    rw [hprune]
    exact sdiff_sdiff_eq_self (Finset.le_iff_subset.mpr hEsub)
  refine ⟨?_, ?_, ?_, ?_⟩
  · rw [hprune]
    exact Finset.sdiff_subset
  · rw [hdiff, hEcard]
  · rw [hprune, Finset.card_sdiff hEsub, hEcard, h]
  · intro x hx y hy
    rw [hdiff, List.mem_toFinset] at hx
    rw [hprune, Finset.mem_sdiff, List.mem_toFinset] at hy
    have hyL : y ∈ s.sort (· ≤ ·) := (Finset.mem_sort _).mpr hy.1
    have hsplit := List.take_append_drop 500 (s.sort (· ≤ ·))
    have hyD : y ∈ (s.sort (· ≤ ·)).drop 500 := by
      rcases List.mem_append.mp (by rw [hsplit]; exact hyL) with hl | hr
      · exact absurd hl hy.2
      · exact hr
    have hsorted : List.Sorted (· ≤ ·) (s.sort (· ≤ ·)) := s.sort_sorted (· ≤ ·)
    have hle : x ≤ y := by
      have hp := List.pairwise_append.mp (by rw [hsplit]; exact hsorted)
      exact hp.2.2 x hx y hyD
    have hne : x ≠ y := by
      have hp := List.pairwise_append.mp (by rw [hsplit]; exact hnodup)
      exact hp.2.2 x hx y hyD
    exact lt_of_le_of_ne hle hne

/-- The back-check loop on a duplicate-free worklist that cannot trigger
an eviction: it emits one record per unseen positive sequence, marks each
of them seen, and counts them. -/
theorem gapFold_spec (now : ℚ) (st : String) (peers : ℤ) (lf : ℚ) :
    ∀ (L : List ℤ) (seen : Finset ℤ) (recs : List ValidationRec) (cnt : ℕ),
      L.Nodup → seen.card + L.length ≤ 1000 →
      L.foldl (gapStep now st peers lf) (seen, recs, cnt) =
        (seen ∪ (L.filter (fun x => x ∉ seen ∧ 0 < x)).toFinset,
         recs ++ (L.filter (fun x => x ∉ seen ∧ 0 < x)).map
           (fun x => check_ledger_validation now x st peers lf),
         cnt + (L.filter (fun x => x ∉ seen ∧ 0 < x)).length) := by
  intro L
  induction L with
  | nil =>
    intro seen recs cnt _ _
    simp
  | cons c t ih =>
    intro seen recs cnt hnd hcard
    obtain ⟨hcnot, hndt⟩ := List.nodup_cons.mp hnd
    simp only [List.length_cons] at hcard
    rw [List.foldl_cons]
    by_cases hc : c ∉ seen ∧ 0 < c
    · have hstep : gapStep now st peers lf (seen, recs, cnt) c =
          (insert c seen, recs ++ [check_ledger_validation now c st peers lf],
           cnt + 1) := by
        simp only [gapStep]
        rw [if_pos hc]
        have hins : (insert c seen).card ≤ 1000 := by
          have := Finset.card_insert_le c seen
          omega
        rw [pruneSeen_of_card_le _ hins]
      have hcardins : (insert c seen).card + t.length ≤ 1000 := by
        have := Finset.card_insert_le c seen
        omega
      rw [hstep, ih (insert c seen) _ _ hndt hcardins]
      have hft : t.filter (fun x => x ∉ insert c seen ∧ 0 < x) =
          t.filter (fun x => x ∉ seen ∧ 0 < x) := by
        apply List.filter_congr
        intro x hx
        have hxc : x ≠ c := fun he => hcnot (he ▸ hx)
        exact decide_eq_decide.mpr (by simp [Finset.mem_insert, hxc])
      have hfc : (c :: t).filter (fun x => x ∉ seen ∧ 0 < x) =
          c :: t.filter (fun x => x ∉ seen ∧ 0 < x) :=
        List.filter_cons_of_pos (by simpa using hc)
      rw [hft, hfc]
      refine Prod.ext ?_ (Prod.ext ?_ ?_)
      · simp [Finset.insert_union, Finset.union_insert]
      · simp
      · simp only [List.length_cons]
        omega
    · have hstep : gapStep now st peers lf (seen, recs, cnt) c =
          (seen, recs, cnt) := by
        simp only [gapStep]
        rw [if_neg hc]
      have hfc : (c :: t).filter (fun x => x ∉ seen ∧ 0 < x) =
          t.filter (fun x => x ∉ seen ∧ 0 < x) :=
        List.filter_cons_of_neg (by simpa using hc)
      rw [hstep, ih seen recs cnt hndt (by omega), hfc]

/-- A failing poll in the `unreachable` tracked state emits no transition
record and no alert, in every branch of `_handle_api_error` (below the
threshold nothing is emitted; above it the synthetic-transition guard
`last_state != 'unreachable'` fails), and the tracked state stays
`unreachable`. -/
theorem pollFailure_unreachable (q : PollerState) (t : ℚ)
    (h : q.last_state = some "unreachable") :
    (pollFailure q t).2.1 = [] ∧ (pollFailure q t).2.2 = [] ∧
    (pollFailure q t).1.last_state = some "unreachable" := by
  simp only [pollFailure, max_errors_before_alert]
  split_ifs with h1
  · simp [h]
  · simp [h]

/-- Any number of further failing polls starting in the `unreachable`
tracked state emit no transition records and no alerts, and leave the
tracked state `unreachable`. -/
theorem runFailures_unreachable :
    ∀ (ts : List ℚ) (q : PollerState), q.last_state = some "unreachable" →
      (runFailures q ts).2.1 = [] ∧ (runFailures q ts).2.2 = [] ∧
      (runFailures q ts).1.last_state = some "unreachable" := by
  intro ts
  induction ts with
  | nil =>
    intro q h
    simp [runFailures, h]
  | cons t ts ih =>
    intro q h
    obtain ⟨h1, h2, h3⟩ := pollFailure_unreachable q t h
    have hstep : runFailures q (t :: ts) = runFailures (pollFailure q t).1 ts := by
      simp only [runFailures, List.foldl_cons]
      rw [h1, h2]
      simp only [List.append_nil]
    rw [hstep]
    exact ih _ h3

/-! ## Claim theorems -/

/-- C1 (amended): for consecutive polls with previous sequence `a ≠ 0`
and current sequence `b` (no eviction during the invocation), the gap
tracker evaluates exactly the integers of the half-open interval `[a, b)`
— including the boundary `a` itself — that are positive and not in the
seen-set, each exactly once, marks them seen, and evaluates nothing when
`b ≤ a` (no error). -/
theorem C1_gap_range :
    ∀ (seen : Finset ℤ) (a b : ℤ) (now : ℚ) (st : String) (peers : ℤ) (lf : ℚ),
      a ≠ 0 → seen.card + (b - a).toNat ≤ 1000 →
      ((checkValidations seen (some a) now st b peers lf).2.1.map
          (fun r => r.ledger_seq) =
        (intRange a b).filter (fun x => x ∉ seen ∧ 0 < x)) ∧
      ((checkValidations seen (some a) now st b peers lf).2.1.map
          (fun r => r.ledger_seq)).Nodup ∧
      (checkValidations seen (some a) now st b peers lf).1 =
        seen ∪ ((intRange a b).filter (fun x => x ∉ seen ∧ 0 < x)).toFinset ∧
      (∀ x : ℤ, x ∈ (checkValidations seen (some a) now st b peers lf).2.1.map
          (fun r => r.ledger_seq) ↔ a ≤ x ∧ x < b ∧ x ∉ seen ∧ 0 < x) ∧
      (b ≤ a → (checkValidations seen (some a) now st b peers lf).2.1 = []) := by
  intro seen a b now st peers lf ha hcard
  have hrange := gapFold_spec now st peers lf (intRange a b) seen [] 0
    (intRange_nodup a b) (by rw [intRange_length]; exact hcard)
  have hcv : checkValidations seen (some a) now st b peers lf =
      (seen ∪ ((intRange a b).filter (fun x => x ∉ seen ∧ 0 < x)).toFinset,
       [] ++ ((intRange a b).filter (fun x => x ∉ seen ∧ 0 < x)).map
         (fun x => check_ledger_validation now x st peers lf),
       0 + ((intRange a b).filter (fun x => x ∉ seen ∧ 0 < x)).length) := by
    simp only [checkValidations]
    rw [if_neg ha]
    exact hrange
  have hmap : (checkValidations seen (some a) now st b peers lf).2.1.map
      (fun r => r.ledger_seq) = (intRange a b).filter (fun x => x ∉ seen ∧ 0 < x) := by
    rw [hcv]
    simp only [List.nil_append, List.map_map]
    rw [show ((fun r : ValidationRec => r.ledger_seq) ∘
        (fun x => check_ledger_validation now x st peers lf)) = id from
      funext fun x => rfl, List.map_id]
  refine ⟨hmap, ?_, ?_, ?_, ?_⟩
  · rw [hmap]
    exact (intRange_nodup a b).filter _
  · rw [hcv]
  · intro x
    rw [hmap, List.mem_filter]
    simp only [mem_intRange, decide_eq_true_eq]
    tauto
  · intro hba
    have hr0 : (b - a).toNat = 0 := by omega
    rw [hcv]
    simp [intRange, hr0]

/-- C1 counterexample to the claim as stated: with previous sequence 5,
current sequence 7 and an empty seen-set, the code evaluates the
sequences 5 and 6 — the boundary 5 is evaluated even though it is not in
the open interval `(5, 7)`. -/
theorem C1_counterexample :
    ((checkValidations ∅ (some 5) 0 "full" 7 10 1).2.1.map
       (fun r => r.ledger_seq)) = [5, 6] ∧
    (5 : ℤ) ∉ Set.Ioo (5 : ℤ) 7 := by
  constructor
  · decide
  · simp

/-- C1 witness: the amended characterisation at the concrete inputs of
the counterexample. -/
theorem C1_gap_range_witness :
    ((checkValidations ∅ (some 5) 0 "full" 7 10 1).2.1.map
       (fun r => r.ledger_seq)) =
      (intRange 5 7).filter (fun x => x ∉ (∅ : Finset ℤ) ∧ 0 < x) :=
  (C1_gap_range ∅ 5 7 0 "full" 10 1 (by decide) (by decide)).1

/-- C6: no eviction occurs while the seen-set has at most 1000 members;
when adding a member makes it 1001, exactly the 500 numerically smallest
members are evicted (each evicted member is below every survivor) leaving
501 ≤ 1000; and a single insertion step always leaves at most 1000
members. -/
theorem C6_seen_set_eviction :
    (∀ s : Finset ℤ, s.card ≤ 1000 → pruneSeen s = s) ∧
    (∀ s : Finset ℤ, s.card = 1001 →
       pruneSeen s ⊆ s ∧ (s \ pruneSeen s).card = 500 ∧
       (pruneSeen s).card = 501 ∧
       ∀ x ∈ s \ pruneSeen s, ∀ y ∈ pruneSeen s, x < y) ∧
    (∀ (s : Finset ℤ) (seq : ℤ), s.card ≤ 1000 →
       (pruneSeen (insert seq s)).card ≤ 1000) := by
  refine ⟨pruneSeen_of_card_le, evicted_spec, ?_⟩
  intro s seq h
  by_cases hc : (insert seq s).card ≤ 1000
  · rw [pruneSeen_of_card_le _ hc]
    exact hc
  · have h1 : (insert seq s).card = 1001 := by
      have := Finset.card_insert_le seq s
      omega
    have := (evicted_spec _ h1).2.2.1
    omega

/-- C6 witness: no eviction on the empty seen-set; eviction on a concrete
1001-member seen-set leaves exactly 501 members. -/
theorem C6_seen_set_eviction_witness :
    pruneSeen (∅ : Finset ℤ) = ∅ ∧
    (pruneSeen (Finset.Icc (0 : ℤ) 1000)).card = 501 :=
  ⟨C6_seen_set_eviction.1 ∅ (by simp),
   (C6_seen_set_eviction.2.1 (Finset.Icc 0 1000)
      (by rw [Int.card_Icc]; decide)).2.2.1⟩

/-- C8: after any sequence of `ValidationRecord` writes there is at most
one stored record per `ledger_seq`, its fields are those of the latest
write for that sequence, and writing the same record twice leaves exactly
one record. -/
theorem C8_upsert_unique_latest :
    ∀ (ws : List ValidationRec) (q : ℤ),
      ((ws.foldl upsertValidation []).filter (fun r => r.ledger_seq = q)).length ≤ 1 ∧
      (ws.foldl upsertValidation []).filter (fun r => r.ledger_seq = q) =
        ((ws.filter (fun r => r.ledger_seq = q)).getLast?).toList ∧
      ∀ r : ValidationRec, [r, r].foldl upsertValidation [] = [r] := by
  intro ws q
  refine ⟨?_, upsert_filter_eq ws q, ?_⟩
  · rw [upsert_filter_eq]
    cases (ws.filter (fun r => r.ledger_seq = q)).getLast? <;> simp
  · intro r
    simp [upsertValidation]

/-- C5: the counter reconcilers (`update_jq_trans_overflow` and both
components of `update_peer_disconnects`) apply a delta of `new - prev` to
the local counter when `new > prev` and a delta of `0` when `new ≤ prev`
(never negative), and always store `new` as the next previous value; in
particular `(prev=100, new=80)` applies delta `0` and `(prev=100,
new=130)` applies delta `30`. -/
theorem C5_counter_reconciler :
    (∀ (prev new ctr : ℤ),
       (update_jq_trans_overflow (some prev) ctr new).1 - ctr =
         (if prev < new then new - prev else 0) ∧
       0 ≤ (update_jq_trans_overflow (some prev) ctr new).1 - ctr ∧
       (update_jq_trans_overflow (some prev) ctr new).2 = new) ∧
    (∀ (prevT prevR ctrT ctrR newT newR : ℤ),
       (update_peer_disconnects (some prevT) (some prevR) ctrT ctrR newT newR).1.1 - ctrT =
         (if prevT < newT then newT - prevT else 0) ∧
       (update_peer_disconnects (some prevT) (some prevR) ctrT ctrR newT newR).1.2 - ctrR =
         (if prevR < newR then newR - prevR else 0) ∧
       (update_peer_disconnects (some prevT) (some prevR) ctrT ctrR newT newR).2 =
         (newT, newR)) ∧
    (update_jq_trans_overflow (some 100) 0 80).1 = 0 ∧
    (update_jq_trans_overflow (some 100) 0 130).1 = 30 := by
  refine ⟨fun prev new ctr => ?_, fun pT pR cT cR nT nR => ?_, by decide, by decide⟩
  · simp only [update_jq_trans_overflow, Option.getD_some, sub_pos]
    refine ⟨?_, ?_, trivial⟩
    · split_ifs with h <;> omega
    · split_ifs with h <;> omega
  · simp only [update_peer_disconnects, Option.getD_some, sub_pos]
    refine ⟨?_, ?_, trivial⟩
    · split_ifs with h <;> omega
    · split_ifs with h <;> omega

/-- C9: the alert emitted on a state transition carries a severity that
is a function of the new state only: CRITICAL for `disconnected` and
`syncing`, WARNING for `tracking`, INFO for `proposing`, WARNING for
every other state. -/
theorem C9_alert_severity :
    (∀ (old_state new_state : String) (d : ℚ) (seq : ℤ),
       (state_change old_state new_state d seq).level =
         stateChangeLevel new_state) ∧
    (∀ s : String, s = "disconnected" ∨ s = "syncing" →
       stateChangeLevel s = "CRITICAL") ∧
    stateChangeLevel "tracking" = "WARNING" ∧
    stateChangeLevel "proposing" = "INFO" ∧
    (∀ s : String, s ≠ "disconnected" → s ≠ "syncing" → s ≠ "tracking" →
       s ≠ "proposing" → stateChangeLevel s = "WARNING") := by
  refine ⟨fun _ _ _ _ => rfl, ?_, by decide, by decide, ?_⟩
  · rintro s (rfl | rfl) <;> decide
  · intro s h1 h2 h3 h4
    simp [stateChangeLevel, h1, h2, h3, h4]

/-- C2: on a successful poll a transition record and an alert are emitted
exactly when the reported state differs from the (truthy) tracked state;
the first observation silently sets the session; feeding
`["syncing", "syncing", "full", "proposing"]` from the initial state
produces exactly the 2 transitions syncing→full and full→proposing and
exactly 2 alerts. -/
theorem C2_state_machine :
    (∀ (ps : PollerState) (inp : PollInput), ps.last_state = none →
       (pollSuccess ps inp).transitions = [] ∧
       (pollSuccess ps inp).alerts = [] ∧
       (pollSuccess ps inp).st.state_entered_at = some inp.now ∧
       (pollSuccess ps inp).st.last_state = some inp.server_state) ∧
    (∀ (ps : PollerState) (inp : PollInput) (ls : String),
       ps.last_state = some ls → inp.server_state = ls →
       (pollSuccess ps inp).transitions = [] ∧ (pollSuccess ps inp).alerts = []) ∧
    (∀ (ps : PollerState) (inp : PollInput) (ls : String) (e : ℚ),
       ps.last_state = some ls → ls ≠ "" → inp.server_state ≠ ls →
       ps.state_entered_at = some e →
       (pollSuccess ps inp).transitions =
         [{ timestamp := inp.now, old_state := ls, new_state := inp.server_state,
            duration := inp.now - e, ledger_seq := inp.seq, peers := inp.peers,
            load_factor := inp.load_factor }] ∧
       (pollSuccess ps inp).alerts =
         [state_change ls inp.server_state (inp.now - e) inp.seq]) ∧
    ((runPolls initialPoller demoInputs).2.1.map
        (fun t => (t.old_state, t.new_state)) =
      [("syncing", "full"), ("full", "proposing")] ∧
     (runPolls initialPoller demoInputs).2.2.length = 2) := by
  refine ⟨?_, ?_, ?_, by decide, by decide⟩
  · intro ps inp h
    simp [pollSuccess, h]
  · intro ps inp ls h hs
    simp [pollSuccess, h, hs]
  · intro ps inp ls e h h1 h2 h4
    simp [pollSuccess, h, h1, h2, h4]

/-- C2 witness: the three conditional parts instantiated at concrete
poller states and inputs. -/
theorem C2_state_machine_witness :
    (pollSuccess initialPoller ⟨0, "syncing", 10, 5, 1⟩).transitions = [] ∧
    (pollSuccess fullStatePoller ⟨6, "full", 11, 5, 1⟩).alerts = [] ∧
    (pollSuccess fullStatePoller ⟨6, "proposing", 11, 5, 1⟩).transitions =
      [{ timestamp := 6, old_state := "full", new_state := "proposing",
         duration := 6 - 5, ledger_seq := 11, peers := 5, load_factor := 1 }] :=
  ⟨(C2_state_machine.1 initialPoller ⟨0, "syncing", 10, 5, 1⟩ rfl).1,
   (C2_state_machine.2.1 fullStatePoller ⟨6, "full", 11, 5, 1⟩ "full" rfl rfl).2,
   (C2_state_machine.2.2.1 fullStatePoller ⟨6, "proposing", 11, 5, 1⟩ "full" 5
      rfl (by decide) (by decide) rfl).1⟩

/-- C3: with threshold 2, after a successful poll (truthy tracked state,
session timestamp present), the first two consecutive failures emit no
record/alert and leave the tracked state unchanged; the third emits
exactly one synthetic transition into `unreachable` (duration from the
existing session) and one CRITICAL alert and sets the tracked state to
`unreachable`; the fourth — and, by the closing two conjuncts, every
subsequent consecutive failure while the tracked state is `unreachable`,
for runs of any length — emits nothing further. -/
theorem C3_unreachable_escalation :
    ∀ (ps : PollerState) (s : String) (e t1 t2 t3 t4 : ℚ),
      ps.last_state = some s → s ≠ "" → s ≠ "unreachable" →
      ps.state_entered_at = some e → e ≠ 0 →
      ps.consecutive_errors = 0 →
      ((pollFailure ps t1).2.1 = [] ∧ (pollFailure ps t1).2.2 = [] ∧
        (pollFailure ps t1).1.last_state = some s) ∧
      ((pollFailure (pollFailure ps t1).1 t2).2.1 = [] ∧
       (pollFailure (pollFailure ps t1).1 t2).2.2 = [] ∧
       (pollFailure (pollFailure ps t1).1 t2).1.last_state = some s) ∧
      ((pollFailure (pollFailure (pollFailure ps t1).1 t2).1 t3).2.1 =
         [{ timestamp := t3, old_state := s, new_state := "unreachable",
            duration := t3 - e, ledger_seq := ps.last_ledger_seq.getD 0,
            peers := 0, load_factor := 0 }] ∧
       (pollFailure (pollFailure (pollFailure ps t1).1 t2).1 t3).2.2 =
         [{ level := "CRITICAL", title := "Validator Unreachable" }] ∧
       (pollFailure (pollFailure (pollFailure ps t1).1 t2).1 t3).1.last_state =
         some "unreachable") ∧
      ((pollFailure (pollFailure (pollFailure (pollFailure ps t1).1 t2).1 t3).1 t4).2.1 = [] ∧
       (pollFailure (pollFailure (pollFailure (pollFailure ps t1).1 t2).1 t3).1 t4).2.2 = []) ∧
      (∀ (q : PollerState) (t : ℚ), q.last_state = some "unreachable" →
         (pollFailure q t).2.1 = [] ∧ (pollFailure q t).2.2 = [] ∧
         (pollFailure q t).1.last_state = some "unreachable") ∧
      (∀ (ts : List ℚ) (q : PollerState), q.last_state = some "unreachable" →
         (runFailures q ts).2.1 = [] ∧ (runFailures q ts).2.2 = [] ∧
         (runFailures q ts).1.last_state = some "unreachable") := by
  intro ps s e t1 t2 t3 t4 h1 h2 h3 h4 h5 h6
  refine ⟨?_, ?_, ?_, ?_, pollFailure_unreachable, runFailures_unreachable⟩ <;>
    simp [pollFailure, max_errors_before_alert, h1, h2, h3, h4, h5, h6]

/-- C3 witness: four consecutive failures after a successful poll that
observed `full`; the fourth emits no record and no alert, and four more
failures (the 4th through 7th of the run) emit nothing either and leave
the tracked state `unreachable`. -/
theorem C3_unreachable_escalation_witness :
    ((pollFailure (pollFailure (pollFailure (pollFailure fullStatePoller
       10).1 11).1 12).1 13).2.1 = [] ∧
     (pollFailure (pollFailure (pollFailure (pollFailure fullStatePoller
       10).1 11).1 12).1 13).2.2 = []) ∧
    ((runFailures (pollFailure (pollFailure (pollFailure fullStatePoller
       10).1 11).1 12).1 [13, 14, 15, 16]).2.1 = [] ∧
     (runFailures (pollFailure (pollFailure (pollFailure fullStatePoller
       10).1 11).1 12).1 [13, 14, 15, 16]).2.2 = [] ∧
     (runFailures (pollFailure (pollFailure (pollFailure fullStatePoller
       10).1 11).1 12).1 [13, 14, 15, 16]).1.last_state = some "unreachable") :=
  ⟨(C3_unreachable_escalation fullStatePoller "full" 5 10 11 12 13 rfl
      (by decide) (by decide) rfl (by decide) rfl).2.2.2.1,
   (C3_unreachable_escalation fullStatePoller "full" 5 10 11 12 13 rfl
      (by decide) (by decide) rfl (by decide) rfl).2.2.2.2.2
     [13, 14, 15, 16]
     (pollFailure (pollFailure (pollFailure fullStatePoller 10).1 11).1 12).1
     (by decide)⟩

/-- C4: evaluation at the failing input.  When every poll since process
start failed past the threshold, the tracked state is `unreachable` while
`state_entered_at` is still `None`; the first successful poll then takes
the transition path, where `timestamp - self.state_entered_at` raises a
`TypeError` that the generic handler swallows — no transition record and
no alert is emitted, and since the tracking fields are never updated,
every later successful poll fails the same way.  The claim (and §4.4 of
the spec) requires exactly one transition out of `unreachable` here. -/
theorem C4_recovery_stuck :
    threeFailuresFromStart.last_state = some "unreachable" ∧
    threeFailuresFromStart.state_entered_at = none ∧
    (pollFailure (pollFailure (pollFailure initialPoller 1).1 2).1 3).2.1 = [] ∧
    (pollFailure (pollFailure (pollFailure initialPoller 1).1 2).1 3).2.2 = [] ∧
    (pollSuccess threeFailuresFromStart ⟨4, "full", 100, 5, 1⟩).errored = true ∧
    (pollSuccess threeFailuresFromStart ⟨4, "full", 100, 5, 1⟩).transitions = [] ∧
    (pollSuccess threeFailuresFromStart ⟨4, "full", 100, 5, 1⟩).alerts = [] ∧
    (pollSuccess (pollSuccess threeFailuresFromStart ⟨4, "full", 100, 5, 1⟩).st
       ⟨7, "full", 101, 5, 1⟩).errored = true ∧
    (pollSuccess (pollSuccess threeFailuresFromStart ⟨4, "full", 100, 5, 1⟩).st
       ⟨7, "full", 101, 5, 1⟩).transitions = [] := by
  decide

/-- C7: over records satisfying the program invariant `agreed →
did_validate`, the windowed statistics return `agreed_count /
total_checked * 100` when the window is non-empty and `0` when it is
empty (the division is guarded, never a division-by-zero error); 10
in-window all-agreed records give 100, an empty window gives 0. -/
theorem C7_rolling_stats :
    (∀ (db : List ValidationRec) (now hours : ℚ),
       (∀ r ∈ db, r.agreed = true → r.did_validate = true) →
       (0 < (db.filter (fun r => now - hours * 3600 ≤ r.timestamp)).length →
          (get_validation_stats_period db now hours).agreement_rate =
            (((db.filter (fun r => now - hours * 3600 ≤ r.timestamp)).filter
                (fun r => r.agreed)).length : ℚ) /
              ((db.filter (fun r => now - hours * 3600 ≤ r.timestamp)).length : ℚ) * 100) ∧
       ((db.filter (fun r => now - hours * 3600 ≤ r.timestamp)).length = 0 →
          (get_validation_stats_period db now hours).agreement_rate = 0)) ∧
    (get_validation_stats_period (List.replicate 10 proposingRecord) 0 24).agreement_rate = 100 ∧
    (get_validation_stats_period [] 0 24).agreement_rate = 0 := by
  refine ⟨?_, ?_, by norm_num [get_validation_stats_period]⟩
  · intro db now hours hinv
    have hfc : (db.filter (fun r => now - hours * 3600 ≤ r.timestamp)).filter
          (fun r => r.did_validate && r.agreed) =
        (db.filter (fun r => now - hours * 3600 ≤ r.timestamp)).filter
          (fun r => r.agreed) := by
      apply List.filter_congr
      intro r hr
      have hrdb : r ∈ db := (List.mem_filter.mp hr).1
      cases ha : r.agreed
      · simp [ha]
      · simp [ha, hinv r hrdb ha]
    constructor
    · intro hpos
      simp only [get_validation_stats_period]
      rw [if_pos hpos, hfc]
    · intro hzero
      simp only [get_validation_stats_period]
      rw [if_neg (by omega)]
  · norm_num [get_validation_stats_period, proposingRecord, check_ledger_validation,
      List.replicate, List.filter]

/-- C7 witness: the windowed rate at a concrete one-record database. -/
theorem C7_rolling_stats_witness :
    (get_validation_stats_period [proposingRecord] 0 24).agreement_rate =
      ((([proposingRecord].filter (fun r => (0 : ℚ) - 24 * 3600 ≤ r.timestamp)).filter
          (fun r => r.agreed)).length : ℚ) /
        (([proposingRecord].filter (fun r => (0 : ℚ) - 24 * 3600 ≤ r.timestamp)).length : ℚ) * 100 :=
  (C7_rolling_stats.1 [proposingRecord] 0 24 (by decide)).1
    (by simp [proposingRecord, check_ledger_validation])

/-- C10: every record produced by the tracker has `should_validate =
did_validate = agreed = was_proposing`; consequently the 24-hour
statistics (which divide agreements by actual validations) return exactly
100 when some in-window record has `did_validate` and exactly 0
otherwise — never a value strictly between. -/
theorem C10_degenerate_agreement_rate :
    (∀ (now : ℚ) (seq : ℤ) (st : String) (peers : ℤ) (lf : ℚ),
       (check_ledger_validation now seq st peers lf).should_validate =
         (check_ledger_validation now seq st peers lf).was_proposing ∧
       (check_ledger_validation now seq st peers lf).did_validate =
         (check_ledger_validation now seq st peers lf).was_proposing ∧
       (check_ledger_validation now seq st peers lf).agreed =
         (check_ledger_validation now seq st peers lf).was_proposing) ∧
    (∀ (db : List ValidationRec) (now : ℚ),
       (∀ r ∈ db, r.agreed = r.did_validate) →
       (0 < ((db.filter (fun r => now - 24 * 3600 ≤ r.timestamp)).filter
            (fun r => r.did_validate)).length →
          (get_validation_stats db now 24).agreement_rate = 100) ∧
       (((db.filter (fun r => now - 24 * 3600 ≤ r.timestamp)).filter
            (fun r => r.did_validate)).length = 0 →
          (get_validation_stats db now 24).agreement_rate = 0)) := by
  refine ⟨fun _ _ _ _ _ => ⟨rfl, rfl, rfl⟩, ?_⟩
  intro db now hinv
  have hfc : (db.filter (fun r => now - 24 * 3600 ≤ r.timestamp)).filter
        (fun r => r.agreed) =
      (db.filter (fun r => now - 24 * 3600 ≤ r.timestamp)).filter
        (fun r => r.did_validate) := by
    apply List.filter_congr
    intro r hr
    exact hinv r (List.mem_filter.mp hr).1
  constructor
  · intro hpos
    simp only [get_validation_stats]
    rw [if_pos hpos, hfc, div_self (by positivity), one_mul]
  · intro h0
    simp only [get_validation_stats]
    rw [if_neg (by omega)]

/-- C10 witness: a single proposing-produced record yields a 24-hour
agreement rate of exactly 100. -/
theorem C10_degenerate_agreement_rate_witness :
    (get_validation_stats [proposingRecord] 0 24).agreement_rate = 100 :=
  (C10_degenerate_agreement_rate.2 [proposingRecord] 0 (by decide)).1
    (by simp [proposingRecord, check_ledger_validation])

/-- C9 witness: the severity mapping at concrete states. -/
theorem C9_alert_severity_witness :
    stateChangeLevel "syncing" = "CRITICAL" ∧
    stateChangeLevel "full" = "WARNING" :=
  ⟨C9_alert_severity.2.1 "syncing" (Or.inr rfl),
   C9_alert_severity.2.2.2.2 "full" (by decide) (by decide) (by decide) (by decide)⟩

end XrplMonitor
